import Mathlib

/-!
Shallow embedding of the alert subsystem of the current-line monitoring
repository: the classifier and notification gatekeeper of the
edge-triggered `POST /send-alert` handler in `src/server.js` (lines
88-170), the superseded revision of the same handler (lines 270-282),
and the client-side polling flow of `src/frontend/src/App.tsx`
(fetchData, lines 92-182).
-/

/-- Operating condition of a reading. Mirrors the string states
`'normal'`, `'short_circuit'`, `'low_current'` of `src/server.js` line 42
and the client alert types of `App.tsx` line 17. -/
inductive Condition where
  | normal
  | short_circuit
  | low_current
deriving DecidableEq, Repr, Fintype

/-- JavaScript number values relevant to the handler: finite numbers are
modelled by rationals, and the non-finite values `Infinity`, `-Infinity`
and `NaN` are explicit constructors, since `typeof` counts them as
numbers. -/
inductive JSNum where
  | fin (q : ℚ)
  | posInf
  | negInf
  | nan
deriving DecidableEq

/-- JavaScript strict comparison `x > c` for a numeric literal `c`:
`Infinity > c` is true, `-Infinity > c` is false, and any comparison with
`NaN` is false. -/
def JSNum.gtLit : JSNum → ℚ → Bool
  | .fin q, c => decide (c < q)
  | .posInf, _ => true
  | .negInf, _ => false
  | .nan, _ => false

/-- JavaScript strict equality `x === c` for a numeric literal `c`:
only finite values compare equal; `NaN === c` is false. -/
def JSNum.eqLit : JSNum → ℚ → Bool
  | .fin q, c => decide (q = c)
  | _, _ => false

/-- JavaScript comparison `x <= c` for a numeric literal `c`, used by the
superseded handler (`src/server.js` line 280): `NaN <= c` is false. -/
def JSNum.leLit : JSNum → ℚ → Bool
  | .fin q, c => decide (q ≤ c)
  | .posInf, _ => false
  | .negInf, _ => true
  | .nan, _ => false

/-- JavaScript values a request body field may hold, as far as the
handler's `typeof` validation distinguishes them. -/
inductive JsValue where
  | num (n : JSNum)
  | str (s : String)
  | boolean (b : Bool)
  | nullv
  | undef
deriving DecidableEq

/-- Server-side classification of a reading's current, `src/server.js`
lines 97-103: `current > 11` gives short_circuit, else `current === 0`
gives low_current, else normal. -/
def classifyJS (current : JSNum) : Condition :=
  if current.gtLit 11 then .short_circuit
  else if current.eqLit 0 then .low_current
  else .normal

/-- Classification restricted to finite numeric currents. -/
def classify (current : ℚ) : Condition := classifyJS (.fin current)

/-- Client-side classification, `App.tsx` lines 133-141:
`shortCircuitDetected = current > 11`, `lowCurrentDetected =
current === 0`, then short_circuit / low_current / normal in that
order. -/
def clientClassify (current : JSNum) : Condition :=
  let shortCircuitDetected := current.gtLit 11
  let lowCurrentDetected := current.eqLit 0
  if shortCircuitDetected then .short_circuit
  else if lowCurrentDetected then .low_current
  else .normal

/-- Gatekeeper decision of `src/server.js` line 106: an alert is due
unless the new condition is normal or equals the stored
`lastAlertType`. -/
def decideNotify (lastAlertType currentAlertType : Condition) : Bool :=
  if currentAlertType = .normal ∨ currentAlertType = lastAlertType then false
  else true

/-- Initial value of the module-level `lastAlertType`, `src/server.js`
line 42. -/
def initLastAlertType : Condition := .normal

/-- Request body as the handler sees it: only the `current` field steers
control flow. -/
structure SensorBody where
  current : JsValue
deriving DecidableEq

/-- Observable HTTP outcome of a `/send-alert` request. -/
inductive Response where
  | badRequest
  | noAlert
  | alertSent (c : Condition)
  | emailError
deriving DecidableEq

/-- The edge-triggered `/send-alert` handler, `src/server.js` lines
88-170, as a function of the stored `lastAlertType`, the request body
(`none` models a falsy body) and whether the email transport succeeds.
Returns the response together with the new `lastAlertType`; both the
no-alert branch (line 108) and the alert branch (line 115) store the
freshly classified condition. -/
def sendAlert (lastAlertType : Condition) (body : Option SensorBody)
    (emailOk : Bool) : Response × Condition :=
  match body with
  | none => (.badRequest, lastAlertType)
  | some sensorData =>
    match sensorData.current with
    | .num cur =>
      let currentAlertType := classifyJS cur
      if currentAlertType = .normal ∨ currentAlertType = lastAlertType then
        (.noAlert, currentAlertType)
      else
        if emailOk then (.alertSent currentAlertType, currentAlertType)
        else (.emailError, currentAlertType)
    | _ => (.badRequest, lastAlertType)

/-- The superseded `/send-alert` handler, `src/server.js` lines 270-282:
same validation, then skip whenever `current <= 12`, otherwise send the
short-circuit email; no state is read or written. -/
def sendAlertOld (body : Option SensorBody) (emailOk : Bool) : Response :=
  match body with
  | none => .badRequest
  | some sensorData =>
    match sensorData.current with
    | .num cur =>
      if cur.leLit 12 then .noAlert
      else if emailOk then .alertSent .short_circuit else .emailError
    | _ => .badRequest

/-- Whether the request body's `current` field is of JavaScript number
type, the exact check `typeof sensorData.current === 'number'` of
`src/server.js` line 93 (a falsy body also fails the check). -/
def currentIsNumber : Option SensorBody → Bool
  | some sensorData =>
    match sensorData.current with
    | .num _ => true
    | _ => false
  | none => false

/-- Whether a JavaScript value is a finite number (`NaN` and the
infinities are numbers by `typeof` but are not finite). -/
def isFiniteNumber : JsValue → Bool
  | .num (.fin _) => true
  | _ => false

/-- Events of one `/send-alert` request, in program order: the write to
the module-level `lastAlertType`, the call to `transporter.sendMail`,
and the HTTP response. -/
inductive Event where
  | stateWrite (c : Condition)
  | sendMailEv (c : Condition)
  | respond (r : Response)
deriving DecidableEq

/-- Event trace of the edge-triggered handler: the no-alert branch
writes the state (line 108) and responds; the alert branch writes the
state (line 115), then calls `sendMail` (line 156), then responds with
success or, when the transport fails, the catch block's 500. -/
def sendAlertTrace (lastAlertType : Condition) (body : Option SensorBody)
    (emailOk : Bool) : List Event :=
  match body with
  | none => [.respond .badRequest]
  | some sensorData =>
    match sensorData.current with
    | .num cur =>
      let currentAlertType := classifyJS cur
      if currentAlertType = .normal ∨ currentAlertType = lastAlertType then
        [.stateWrite currentAlertType, .respond .noAlert]
      else
        [.stateWrite currentAlertType, .sendMailEv currentAlertType,
         .respond (if emailOk then .alertSent currentAlertType else .emailError)]
    | _ => [.respond .badRequest]

/-- Value of `lastAlertType` after replaying the state writes of a
trace on top of an initial value. -/
def stateAfter (init : Condition) : List Event → Condition
  | [] => init
  | .stateWrite c :: rest => stateAfter c rest
  | .sendMailEv _ :: rest => stateAfter init rest
  | .respond _ :: rest => stateAfter init rest

/-- Checks that at every `sendMail` call in the trace, the running
`lastAlertType` already equals the condition being dispatched. -/
def dispatchStatesOk (st : Condition) : List Event → Bool
  | [] => true
  | .stateWrite c :: rest => dispatchStatesOk c rest
  | .sendMailEv c :: rest => decide (st = c) && dispatchStatesOk st rest
  | .respond _ :: rest => dispatchStatesOk st rest

/-- Atomic segments of one `/send-alert` request under Node's
run-to-completion scheduling, tagged by which of two requests they
belong to. The handler contains no await between the dedup check (line
106) and the state write (line 115), so validation, classification,
check and write form one synchronous segment `checkAndSet`; the awaited
`sendMail` is a separate segment `emailSend` that does not touch the
state. -/
inductive ReqStep where
  | checkAndSet (second : Bool)
  | emailSend (second : Bool)
deriving DecidableEq

/-- Shared state plus the decision each of the two requests has
observed (`none` while its check has not yet run). -/
structure SchedOutcome where
  lastAlertType : Condition
  notifyA : Option Bool
  notifyB : Option Bool
deriving DecidableEq

/-- Effect of one atomic segment when both requests carry a reading that
classifies to condition `c`. -/
def runStep (c : Condition) (st : SchedOutcome) : ReqStep → SchedOutcome
  | .checkAndSet second =>
    let r := decideNotify st.lastAlertType c
    if second then { lastAlertType := c, notifyA := st.notifyA, notifyB := some r }
    else { lastAlertType := c, notifyA := some r, notifyB := st.notifyB }
  | .emailSend _ => st

/-- Execution of a whole schedule from the fresh server state. -/
def runSched (c : Condition) (sched : List ReqStep) : SchedOutcome :=
  sched.foldl (runStep c) ⟨initLastAlertType, none, none⟩

/-- All six interleavings of the two segments of request A with the two
segments of request B that respect each request's program order. -/
def interleavings : List (List ReqStep) :=
  [[.checkAndSet false, .emailSend false, .checkAndSet true, .emailSend true],
   [.checkAndSet false, .checkAndSet true, .emailSend false, .emailSend true],
   [.checkAndSet false, .checkAndSet true, .emailSend true, .emailSend false],
   [.checkAndSet true, .checkAndSet false, .emailSend false, .emailSend true],
   [.checkAndSet true, .checkAndSet false, .emailSend true, .emailSend false],
   [.checkAndSet true, .emailSend true, .checkAndSet false, .emailSend false]]

/-- Feeding the gatekeeper one decision per condition in order; the
stored state becomes the processed condition after each step. -/
def runConditions (lastAlertType : Condition) : List Condition → List Bool
  | [] => []
  | c :: rest => decideNotify lastAlertType c :: runConditions c rest

/-- Feeding the gatekeeper one decision per finite current reading. -/
def runCurrents (lastAlertType : Condition) : List ℚ → List Bool
  | [] => []
  | q :: rest => decideNotify lastAlertType (classify q) :: runCurrents (classify q) rest

/-- Composed client/server state: the client's `lastAlertTypeRef`
(`App.tsx` line 43) and the server's `lastAlertType` (`server.js` line
42). -/
structure SysState where
  clientLast : Condition
  serverLast : Condition
deriving DecidableEq

/-- One polling cycle of `fetchData` (`App.tsx` lines 133-175) composed
with the server handler: the client classifies the reading and calls
`/send-alert` only when the condition is non-normal and differs from
its ref; the server then runs its dedup check and updates its state;
the client ref is always updated afterwards. Returns the new state,
whether the client sent a request, and whether an email was
dispatched. -/
def pollStep (st : SysState) (q : JSNum) : SysState × Bool × Bool :=
  let c := clientClassify q
  if c ≠ .normal ∧ c ≠ st.clientLast then
    let serverCond := classifyJS q
    let emailed := decideNotify st.serverLast serverCond
    ({ clientLast := c, serverLast := serverCond }, true, emailed)
  else
    ({ clientLast := c, serverLast := st.serverLast }, false, false)

/-- Composed polling over a reading stream; records per reading whether
the client sent a request and whether an email went out. -/
def runPoll (st : SysState) : List JSNum → List (Bool × Bool)
  | [] => []
  | q :: rest =>
    let r := pollStep st q
    (r.2.1, r.2.2) :: runPoll r.1 rest

/-- The client-side and server-side classifications agree on every
JavaScript number. -/
theorem clientClassify_eq_classifyJS (q : JSNum) :
    clientClassify q = classifyJS q := rfl
/-- C1: starting from initial state Normal, the gatekeeper decision of
the `/send-alert` state update fires exactly on the four edges
Normal→ShortCircuit, Normal→LowCurrent, ShortCircuit→LowCurrent and
LowCurrent→ShortCircuit, and is silent on every self-loop and every
edge into Normal; the condition sequence [Normal, ShortCircuit,
LowCurrent] yields shouldNotify [false, true, true]. -/
theorem decideNotify_edge_characterization :
    (∀ l c : Condition, decideNotify l c = true ↔
      ((l = .normal ∧ c = .short_circuit) ∨ (l = .normal ∧ c = .low_current) ∨
       (l = .short_circuit ∧ c = .low_current) ∨
       (l = .low_current ∧ c = .short_circuit))) ∧
    runConditions initLastAlertType [.normal, .short_circuit, .low_current] =
      [false, true, true] := by
  decide
/-- C2: classification of a finite numeric current has exact boundary
semantics: current > 11 yields ShortCircuit, current = 0 yields
LowCurrent, every other value yields Normal; in particular 11 is
Normal, 11.0001 is ShortCircuit, 0.0001 is Normal, and every current in
(0, 11] is Normal. -/
theorem classify_boundary :
    (∀ q : ℚ, 11 < q → classify q = .short_circuit) ∧
    classify 0 = .low_current ∧
    (∀ q : ℚ, ¬ 11 < q → q ≠ 0 → classify q = .normal) ∧
    classify 11 = .normal ∧
    classify (110001 / 10000) = .short_circuit ∧
    classify (1 / 10000) = .normal ∧
    (∀ q : ℚ, 0 < q → q ≤ 11 → classify q = .normal) := by
  have eval : ∀ q : ℚ, classify q =
      if 11 < q then .short_circuit else if q = 0 then .low_current else .normal := by
    intro q
    simp [classify, classifyJS, JSNum.gtLit, JSNum.eqLit]
  refine ⟨?_, ?_, ?_, ?_, ?_, ?_, ?_⟩
  · intro q h
    rw [eval, if_pos h]
  · rw [eval, if_neg (by norm_num), if_pos rfl]
  · intro q h1 h2
    rw [eval, if_neg h1, if_neg h2]
  · rw [eval, if_neg (by norm_num), if_neg (by norm_num)]
  · rw [eval, if_pos (by norm_num)]
  · rw [eval, if_neg (by norm_num), if_neg (by norm_num)]
  · intro q h1 h2
    rw [eval, if_neg (by linarith), if_neg (by linarith)]

/-- Witness for C2 at concrete inputs: 12 is classified ShortCircuit,
5 lies in (0, 11] and is classified Normal, and 7 is neither above 11
nor zero and is classified Normal. -/
theorem classify_boundary_witness :
    ((11 : ℚ) < 12 ∧ classify 12 = .short_circuit) ∧
    ((0 : ℚ) < 5 ∧ (5 : ℚ) ≤ 11 ∧ classify 5 = .normal) ∧
    (¬ (11 : ℚ) < 7 ∧ (7 : ℚ) ≠ 0 ∧ classify 7 = .normal) :=
  ⟨⟨by norm_num, classify_boundary.1 12 (by norm_num)⟩,
   ⟨by norm_num, by norm_num,
    classify_boundary.2.2.2.2.2.2 5 (by norm_num) (by norm_num)⟩,
   ⟨by norm_num, by norm_num,
    classify_boundary.2.2.1 7 (by norm_num) (by norm_num)⟩⟩

/-- C3: from fresh state, the condition sequence [Normal, ShortCircuit,
ShortCircuit, ShortCircuit, Normal, ShortCircuit] yields shouldNotify
[false, true, false, false, false, true], and the current stream
5, 5, 0, 0, 12, 5, 12 notifies exactly at positions 3, 5 and 7, whose
readings classify to LowCurrent, ShortCircuit and ShortCircuit. -/
theorem notify_sequences :
    runConditions initLastAlertType
      [.normal, .short_circuit, .short_circuit, .short_circuit, .normal,
       .short_circuit] = [false, true, false, false, false, true] ∧
    runCurrents initLastAlertType [5, 5, 0, 0, 12, 5, 12] =
      [false, false, true, false, true, false, true] ∧
    ([5, 5, 0, 0, 12, 5, 12] : List ℚ).map classify =
      [.normal, .normal, .low_current, .low_current, .short_circuit, .normal,
       .short_circuit] := by
  refine ⟨by decide, by decide, by decide⟩
/-- C4: in every execution of the alert path, whenever the notifier is
invoked the running `lastAlertType` already equals the dispatched
condition — the state write happens strictly before the email dispatch
— and the dispatched condition is a genuine edge: non-normal and
different from the prior stored value. -/
theorem state_written_before_dispatch :
    ∀ (lastAlertType : Condition) (body : Option SensorBody) (emailOk : Bool),
      dispatchStatesOk lastAlertType
        (sendAlertTrace lastAlertType body emailOk) = true ∧
      (∀ c : Condition,
        Event.sendMailEv c ∈ sendAlertTrace lastAlertType body emailOk →
          c ≠ lastAlertType ∧ c ≠ .normal) := by
  intro lastAlertType body emailOk
  rcases body with _ | ⟨cv⟩
  · simp [sendAlertTrace, dispatchStatesOk]
  rcases cv with n | s | b | _ | _
  · by_cases hc : classifyJS n = .normal ∨ classifyJS n = lastAlertType
    · constructor
      · simp [sendAlertTrace, hc, dispatchStatesOk]
      · intro c hmem
        simp [sendAlertTrace, hc] at hmem
    · push_neg at hc
      constructor
      · simp [sendAlertTrace, hc.1, hc.2, dispatchStatesOk]
      · intro c hmem
        simp [sendAlertTrace, hc.1, hc.2] at hmem
        subst hmem
        exact ⟨hc.2, hc.1⟩
  all_goals simp [sendAlertTrace, dispatchStatesOk]

/-- Witness for C4: the current-12 request from Normal state dispatches
ShortCircuit, the trace passes the state-before-dispatch check, and the
dispatched condition is a genuine edge. -/
theorem state_written_before_dispatch_witness :
    (dispatchStatesOk .normal
      (sendAlertTrace .normal (some ⟨.num (.fin 12)⟩) true) = true ∧
     Event.sendMailEv .short_circuit ∈
       sendAlertTrace .normal (some ⟨.num (.fin 12)⟩) true) ∧
    (Condition.short_circuit ≠ Condition.normal ∧
     Condition.short_circuit ≠ Condition.normal) :=
  ⟨⟨(state_written_before_dispatch .normal (some ⟨.num (.fin 12)⟩) true).1,
    by decide⟩,
   (state_written_before_dispatch .normal (some ⟨.num (.fin 12)⟩) true).2
     .short_circuit (by decide)⟩
/-- C5: when two concurrent `/send-alert` requests both classify to the
same new non-normal condition from the fresh Normal state, then under
every interleaving of their atomic segments (the read-check-write
critical section runs to completion, since the handler has no await
point inside it) exactly one request observes shouldNotify true and the
other observes false. -/
theorem concurrent_duplicate_suppressed :
    ∀ c : Condition, c ≠ .normal → ∀ sched ∈ interleavings,
      ((runSched c sched).notifyA = some true ∧
       (runSched c sched).notifyB = some false) ∨
      ((runSched c sched).notifyA = some false ∧
       (runSched c sched).notifyB = some true) := by
  decide

/-- Witness for C5: ShortCircuit with the fully serial schedule; the
first request notifies and the second is suppressed. -/
theorem concurrent_duplicate_suppressed_witness :
    (Condition.short_circuit ≠ Condition.normal ∧
     [ReqStep.checkAndSet false, .emailSend false, .checkAndSet true,
      .emailSend true] ∈ interleavings) ∧
    (((runSched .short_circuit
        [.checkAndSet false, .emailSend false, .checkAndSet true,
         .emailSend true]).notifyA = some true ∧
      (runSched .short_circuit
        [.checkAndSet false, .emailSend false, .checkAndSet true,
         .emailSend true]).notifyB = some false) ∨
     ((runSched .short_circuit
        [.checkAndSet false, .emailSend false, .checkAndSet true,
         .emailSend true]).notifyA = some false ∧
      (runSched .short_circuit
        [.checkAndSet false, .emailSend false, .checkAndSet true,
         .emailSend true]).notifyB = some true)) :=
  ⟨⟨by decide, by decide⟩,
   concurrent_duplicate_suppressed .short_circuit (by decide)
     [.checkAndSet false, .emailSend false, .checkAndSet true,
      .emailSend true] (by decide)⟩

/-- C6: when the email transport fails on a genuine edge, the handler
answers with the 500 error response, keeps `lastAlertType` at the newly
consumed condition rather than reverting it, and a later transition to
any different non-normal condition is still detected. -/
theorem email_failure_keeps_state :
    ∀ (lastAlertType : Condition) (q : JSNum),
      classifyJS q ≠ .normal → classifyJS q ≠ lastAlertType →
      sendAlert lastAlertType (some ⟨.num q⟩) false =
        (.emailError, classifyJS q) ∧
      (∀ c2 : Condition, c2 ≠ .normal → c2 ≠ classifyJS q →
        decideNotify (sendAlert lastAlertType (some ⟨.num q⟩) false).2 c2 =
          true) := by
  intro lastAlertType q h1 h2
  constructor
  · simp [sendAlert, h1, h2]
  · intro c2 hc1 hc2
    simp [sendAlert, h1, h2, decideNotify, hc1, hc2]

/-- Witness for C6: failing to email the ShortCircuit edge from Normal
state yields the 500 response with state ShortCircuit, and a following
LowCurrent reading still notifies. -/
theorem email_failure_keeps_state_witness :
    (classifyJS (.fin 12) ≠ Condition.normal ∧
     classifyJS (.fin 12) ≠ Condition.normal ∧
     Condition.low_current ≠ Condition.normal ∧
     Condition.low_current ≠ classifyJS (.fin 12)) ∧
    sendAlert .normal (some ⟨.num (.fin 12)⟩) false =
      (.emailError, classifyJS (.fin 12)) ∧
    decideNotify (sendAlert .normal (some ⟨.num (.fin 12)⟩) false).2
      .low_current = true :=
  ⟨⟨by decide, by decide, by decide, by decide⟩,
   (email_failure_keeps_state .normal (.fin 12) (by decide) (by decide)).1,
   (email_failure_keeps_state .normal (.fin 12) (by decide) (by decide)).2
     .low_current (by decide) (by decide)⟩

/-- C7: `lastAlertType` starts as Normal, and after any
validation-passing `/send-alert` request — whatever the prior state and
whether or not the email succeeds — it equals the classification of the
reading just processed. -/
theorem lastAlertType_invariant :
    initLastAlertType = .normal ∧
    ∀ (lastAlertType : Condition) (q : JSNum) (emailOk : Bool),
      (sendAlert lastAlertType (some ⟨.num q⟩) emailOk).2 = classifyJS q := by
  refine ⟨rfl, ?_⟩
  intro lastAlertType q emailOk
  by_cases hc : classifyJS q = .normal ∨ classifyJS q = lastAlertType
  · simp [sendAlert, hc]
  · rcases emailOk with _ | _ <;> simp [sendAlert, hc]
/-- Counterexample to C8: a request whose `current` is `Infinity` — a
number by `typeof` but not a finite number — is not rejected with 400
and does change the gatekeeper state, because the validation of
`src/server.js` line 93 only checks `typeof`, not finiteness. -/
theorem nonfinite_current_not_rejected :
    isFiniteNumber (.num .posInf) = false ∧
    (sendAlert .normal (some ⟨.num .posInf⟩) true).1 ≠ Response.badRequest ∧
    (sendAlert .normal (some ⟨.num .posInf⟩) true).2 ≠ Condition.normal ∧
    (sendAlert .normal (some ⟨.num .posInf⟩) true).1 =
      Response.alertSent .short_circuit := by
  decide

/-- C8 amended: every request whose `current` field is not of
JavaScript number type (missing body or non-numeric field) is rejected
with 400 before classification and leaves the gatekeeper state
unchanged; non-finite numbers such as Infinity and NaN pass the
validation. -/
theorem non_number_current_rejected :
    ∀ (lastAlertType : Condition) (body : Option SensorBody) (emailOk : Bool),
      currentIsNumber body = false →
      sendAlert lastAlertType body emailOk = (.badRequest, lastAlertType) := by
  intro lastAlertType body emailOk h
  rcases body with _ | ⟨cv⟩
  · simp [sendAlert]
  rcases cv with n | s | b | _ | _ <;> simp_all [currentIsNumber, sendAlert]

/-- Witness for C8 amended: a boolean-valued `current` field fails the
typeof check and the request is rejected with the state untouched. -/
theorem non_number_current_rejected_witness :
    currentIsNumber (some ⟨.boolean true⟩) = false ∧
    sendAlert .short_circuit (some ⟨.boolean true⟩) true =
      (.badRequest, .short_circuit) :=
  ⟨by decide,
   non_number_current_rejected .short_circuit (some ⟨.boolean true⟩) true
     (by decide)⟩
/-- C9: the two `/send-alert` revisions are not behaviorally
equivalent: at current 11.5 (strictly between 11 and 12) and at current
exactly 0, the edge-triggered revision dispatches an alert from fresh
state while the superseded revision answers that no email is due. -/
theorem handler_revisions_inequivalent :
    (sendAlert .normal (some ⟨.num (.fin (23 / 2))⟩) true).1 =
      Response.alertSent .short_circuit ∧
    sendAlertOld (some ⟨.num (.fin (23 / 2))⟩) true = Response.noAlert ∧
    (sendAlert .normal (some ⟨.num (.fin 0)⟩) true).1 =
      Response.alertSent .low_current ∧
    sendAlertOld (some ⟨.num (.fin 0)⟩) true = Response.noAlert := by
  have h1 : (11 : ℚ) < 23 / 2 := by norm_num
  have h2 : (23 : ℚ) / 2 ≤ 12 := by norm_num
  refine ⟨?_, ?_, by decide, by decide⟩
  · simp [sendAlert, classifyJS, JSNum.gtLit, h1]
  · simp [sendAlertOld, JSNum.leLit, h2]

/-- C10: in the composed client/server flow, the client calls
`/send-alert` only for readings classifying non-normal and different
from its own ref; a polling cycle never resets a non-normal server
state back to Normal; and for a stream with conditions ShortCircuit,
Normal, ShortCircuit from fresh state on both sides, the client sends
at readings 1 and 3 but only the first causes an email — the re-entry
is deduplicated by the server. -/
theorem composed_flow_dedup :
    (∀ (st : SysState) (q : JSNum), (pollStep st q).2.1 = true →
      clientClassify q ≠ .normal ∧ clientClassify q ≠ st.clientLast) ∧
    (∀ (st : SysState) (q : JSNum), st.serverLast ≠ .normal →
      ((pollStep st q).1).serverLast ≠ .normal) ∧
    (∀ q1 q2 q3 : JSNum,
      classifyJS q1 = .short_circuit → classifyJS q2 = .normal →
      classifyJS q3 = .short_circuit →
      runPoll ⟨.normal, .normal⟩ [q1, q2, q3] =
        [(true, true), (false, false), (true, false)]) := by
  refine ⟨?_, ?_, ?_⟩
  · intro st q h
    by_cases hc : clientClassify q ≠ .normal ∧ clientClassify q ≠ st.clientLast
    · exact hc
    · simp [pollStep, hc] at h
  · intro st q h
    by_cases hc : clientClassify q ≠ .normal ∧ clientClassify q ≠ st.clientLast
    · have : classifyJS q ≠ .normal := by
        rw [← clientClassify_eq_classifyJS]
        exact hc.1
      simp [pollStep, hc, this]
    · simp [pollStep, hc, h]
  · intro q1 q2 q3 h1 h2 h3
    have e1 : clientClassify q1 = .short_circuit := by
      rw [clientClassify_eq_classifyJS, h1]
    have e2 : clientClassify q2 = .normal := by
      rw [clientClassify_eq_classifyJS, h2]
    have e3 : clientClassify q3 = .short_circuit := by
      rw [clientClassify_eq_classifyJS, h3]
    simp [runPoll, pollStep, e1, e2, e3, h1, h2, h3, decideNotify]

/-- Witness for C10: a current-12 reading from fresh state triggers a
send; a current-5 reading preserves a non-normal server state; and the
concrete stream 12, 5, 12 realizes the ShortCircuit, Normal,
ShortCircuit scenario. -/
theorem composed_flow_dedup_witness :
    ((pollStep ⟨.normal, .normal⟩ (.fin 12)).2.1 = true ∧
     clientClassify (.fin 12) ≠ .normal ∧
     clientClassify (.fin 12) ≠ Condition.normal) ∧
    (Condition.short_circuit ≠ Condition.normal ∧
     ((pollStep ⟨.normal, .short_circuit⟩ (.fin 5)).1).serverLast ≠
       .normal) ∧
    (classifyJS (.fin 12) = .short_circuit ∧ classifyJS (.fin 5) = .normal ∧
     runPoll ⟨.normal, .normal⟩ [.fin 12, .fin 5, .fin 12] =
       [(true, true), (false, false), (true, false)]) :=
  ⟨⟨by decide,
    composed_flow_dedup.1 ⟨.normal, .normal⟩ (.fin 12) (by decide)⟩,
   ⟨by decide,
    composed_flow_dedup.2.1 ⟨.normal, .short_circuit⟩ (.fin 5) (by decide)⟩,
   ⟨by decide, by decide,
    composed_flow_dedup.2.2 (.fin 12) (.fin 5) (.fin 12) (by decide)
      (by decide) (by decide)⟩⟩
